import Mathlib

/-!
Verification of the CytoPy flow-cytometry core: a shallow embedding of
`src/cytopy/flow/read_write.py` (FCS file loading, spillover-matrix decoding,
compensation) and `src/CytoPy/data/gate.py` (threshold-gate child validation),
with theorems settling the specification claims.

Modelling conventions: Python strings are Lean `String` values manipulated
through their character lists (so that everything evaluates inside the
kernel); Python floats are `Rat` (only parsing and data movement matter for
the claims, no floating-point arithmetic is verified); Python code that can
raise is modelled with `Except String`, the error string naming the Python
exception.
-/

namespace CytoPy

/-- Characters removed at both ends by Python `str.strip()`. -/
def isSpaceChar (c : Char) : Bool :=
  c = ' ' || c = '\t' || c = '\n' || c = '\r' || c = '\x0b' || c = '\x0c'

/-- Python `s.strip()` on a character list. -/
def stripChars (cs : List Char) : List Char :=
  ((cs.dropWhile isSpaceChar).reverse.dropWhile isSpaceChar).reverse

/-- Python `i.strip().replace('\n', '')`, applied to every spillover header
and value token (read_write.py lines 155-156). -/
def pstrip (s : String) : String :=
  String.mk ((stripChars s.data).filter (fun c => c != '\n'))

/-- Python `s.split(sep)` for a single-character separator, on character
lists: `"".split(",") = [""]`, and separators delimit possibly empty parts. -/
def splitListOn (sep : Char) : List Char → List (List Char)
  | [] => [[]]
  | c :: rest =>
    match splitListOn sep rest with
    | [] => [[]]
    | p :: ps => if c = sep then [] :: p :: ps else (c :: p) :: ps

/-- Python `s.split(sep)` for a single-character separator. -/
def pySplit (s : String) (sep : Char) : List String :=
  (splitListOn sep s.data).map String.mk

/-- Numeric value of a digit-character list, most significant digit first. -/
def decNat (cs : List Char) : Nat :=
  cs.foldl (fun a c => a * 10 + (c.toNat - 48)) 0

/-- Python `int(s)`: surrounding whitespace is ignored, then an optional
sign followed by at least one digit; anything else raises ValueError
(modelled as `none`). -/
def pyInt? (s : String) : Option Int :=
  match stripChars s.data with
  | '-' :: cs => if cs ≠ [] ∧ cs.all Char.isDigit then some (-(decNat cs : Int)) else none
  | '+' :: cs => if cs ≠ [] ∧ cs.all Char.isDigit then some ((decNat cs : Int)) else none
  | cs => if cs ≠ [] ∧ cs.all Char.isDigit then some ((decNat cs : Int)) else none

/-- Helper for `pyFloat?`: an unsigned decimal literal, either all digits or
`digits.digits` with at least one digit overall. -/
def pyFloatCore (cs : List Char) : Option Rat :=
  match splitListOn '.' cs with
  | [ip] => if ip ≠ [] ∧ ip.all Char.isDigit then some ((decNat ip : Rat)) else none
  | [ip, fp] =>
    if (ip ≠ [] ∨ fp ≠ []) ∧ ip.all Char.isDigit ∧ fp.all Char.isDigit then
      some ((decNat ip : Rat) + (decNat fp : Rat) / ((10 : Rat) ^ fp.length))
    else none
  | _ => none

/-- Python `float(s)` on plain decimal literals (optional sign, digits,
optional fractional part) — the shape of spillover value tokens; anything
else raises ValueError (modelled as `none`). -/
def pyFloat? (s : String) : Option Rat :=
  match s.data with
  | '-' :: cs => (pyFloatCore cs).map (fun q => -q)
  | '+' :: cs => pyFloatCore cs
  | cs => pyFloatCore cs

/-- Python `s.replace(a, b)` for single characters (used with `'_'`/`'-'` on
channel and marker names, read_write.py lines 131-133). -/
def pyReplaceChar (s : String) (a b : Char) : String :=
  String.mk (s.data.map (fun c => if c = a then b else c))

/-- Fuelled worker for `chunks`; the fuel (the length of the original list)
makes the recursion structural so that it evaluates in the kernel. -/
def chunksFuel {α : Type} : Nat → List α → Nat → List (List α)
  | 0, _, _ => []
  | fuel+1, l, n =>
    match l, n with
    | [], _ => []
    | _ :: _, 0 => []
    | a :: rest, m+1 => (a :: rest).take (m+1) :: chunksFuel fuel (rest.drop m) (m+1)

/-- `chunks` (read_write.py lines 10-19): the successive slices `l[i:i+n]`
for `i = 0, n, 2n, ...`; the final slice may be shorter than `n`. Python
raises for step `n = 0`, which no caller does; here `n = 0` gives `[]`. -/
def chunks {α : Type} (l : List α) (n : Nat) : List (List α) :=
  chunksFuel l.length l n

/-- Whether an `Except` computation finished without raising. -/
def exOk {ε α : Type} : Except ε α → Bool
  | .ok _ => true
  | .error _ => false

/-! ## Data model

The parts of the flowio `FlowData` object consumed by `FCSFile.__init__`,
and the record the constructor produces. -/

/-- One declared channel of the file: the `PnN` primary name and the
optional `PnS` secondary (marker) name, as found in the entries of the
flowio `channels` dictionary. -/
structure ChannelInfo where
  PnN : String
  PnS : Option String
  deriving DecidableEq, Inhabited

/-- The flowio `FlowData` inputs read by `FCSFile.__init__`: the text
metadata dictionary, the declared channels in declared order (flowio emits
one entry per event-matrix column, so the declared channel count is the
length of this list), and the flat numeric event buffer. -/
structure FlowData where
  text : List (String × String)
  channels : List ChannelInfo
  events : List Rat
  deriving DecidableEq

/-- flowio `channel_count`: one per declared channel. -/
def FlowData.channel_count (fd : FlowData) : Nat := fd.channels.length

/-- One channel/marker mapping dictionary `{'channel': c, 'marker': m}`. -/
structure Mapping where
  channel : String
  marker : String
  deriving DecidableEq, Inhabited

/-- The labelled square matrix produced by `_get_spill_matrix` (a pandas
DataFrame whose index and columns are both renamed with the header). -/
structure SpillMatrix where
  rowLabels : List String
  colLabels : List String
  rows : List (List Rat)
  deriving DecidableEq, Inhabited

/-- One `{'channel': c, 'threshold': v}` dictionary (both values are the raw
string tokens of the comma-separated `threshold` metadata value). -/
structure ThresholdEntry where
  channel : String
  threshold : String
  deriving DecidableEq

/-- The `threshold` attribute: either the parsed pair list or the string
sentinel `'Unknown'` used when the metadata key is absent. -/
inductive ThresholdField where
  | unknown
  | entries (l : List ThresholdEntry)
  deriving DecidableEq

/-- The attributes of an `FCSFile` object set by `__init__`
(read_write.py lines 77-113). -/
structure FCSFile where
  filename : String := "Unknown_filename"
  sys : String := "Unknown_system"
  total_events : Int := 0
  tube_name : String := "Unknown"
  exp_name : String := "Unknown"
  cytometer : String := "Unknown"
  creator : String := "Unknown"
  operator : String := "Unknown"
  fluoro_mappings : List Mapping := []
  data : List Rat := []
  event_data : List (List Rat) := []
  threshold : ThresholdField := .unknown
  processing_date : String := "Unknown"
  spill : Option SpillMatrix := none
  cst_pass : Bool := false
  deriving DecidableEq

/-! ## The loader (read_write.py lines 77-161) -/

/-- `FCSFile._get_fluoro_mapping` (lines 120-137): one mapping per declared
channel in order; channel is `PnN` with underscores replaced by hyphens,
marker is `PnS` likewise or the empty string when `PnS` is absent. -/
def _get_fluoro_mapping (channels : List ChannelInfo) : List Mapping :=
  channels.map (fun fm =>
    { channel := pyReplaceChar fm.PnN '_' '-',
      marker := match fm.PnS with
                | some s => pyReplaceChar s '_' '-'
                | none => "" })

/-- `int(matrix_list[0])` (line 153): ValueError on a bad literal. -/
def pyIntE (s : String) : Except String Int :=
  match pyInt? s with
  | some n => .ok n
  | none => .error "ValueError: invalid literal for int"

/-- numpy rejects a negative reshape dimension; a non-negative one is used
as the Nat dimension. -/
def checkDim (nz : Int) : Except String Nat :=
  if nz < 0 then .error "ValueError: negative dimensions are not allowed"
  else .ok nz.toNat

/-- `list(map(float, values))` (line 157): ValueError on the first bad
float token. -/
def mapFloats (values : List String) : Except String (List Rat) :=
  match values.mapM pyFloat? with
  | some floats => .ok floats
  | none => .error "ValueError: could not convert string to float"

/-- `np.reshape(floats, (n, n))` (line 157): the value count must be
exactly `n*n`; the rows are the successive `n`-sized slices. -/
def reshapeNN (floats : List Rat) (n : Nat) : Except String (List (List Rat)) :=
  if floats.length = n * n then .ok (chunks floats n)
  else .error "ValueError: cannot reshape array"

/-- `FCSFile._get_spill_matrix` (lines 139-161): split on commas, read the
integer dimension `n` from the first token, take the next `n` tokens as the
(trimmed) header, trim the remaining tokens, convert them to floats and
reshape to an `n` by `n` matrix; the DataFrame is relabelled on both axes
with the header. A bad integer, a bad float, a negative dimension or a
value count different from `n*n` raises ValueError. -/
def _get_spill_matrix (matrix_string : String) : Except String SpillMatrix :=
  let matrix_list := pySplit matrix_string ','
  (pyIntE (matrix_list.headD "")).bind fun nz =>
  (checkDim nz).bind fun n =>
  let header := ((matrix_list.drop 1).take n).map pstrip
  let values := (matrix_list.drop (n + 1)).map pstrip
  (mapFloats values).bind fun floats =>
  (reshapeNN floats n).bind fun rows =>
  .ok { rowLabels := header, colLabels := header, rows := rows }

/-- `int(fcs.text.get('tot', 0))` (line 81): the default is the integer 0;
a present but non-numeric value raises ValueError. -/
def pyTot (text : List (String × String)) : Except String Int :=
  match text.lookup "tot" with
  | none => .ok 0
  | some s =>
    match pyInt? s with
    | some n => .ok n
    | none => .error "ValueError: invalid literal for int"

/-- `np.reshape(buf, (-1, n))` (line 90): fails unless the buffer length is
a positive multiple of `n` (numpy cannot infer the free dimension when
`n = 0` and refuses a length that is not a multiple of `n`); on success the
rows are the successive `n`-sized slices, nothing is dropped or padded. -/
def npReshape (buf : List Rat) (n : Nat) : Except String (List (List Rat)) :=
  if n = 0 then .error "ValueError: cannot reshape array"
  else if buf.length % n = 0 then .ok (chunks buf n)
  else .error "ValueError: cannot reshape array"

/-- Destructuring `for c, v in ...` of one chunk (line 92): a chunk that is
not exactly a pair raises ValueError. -/
def unpackPair (c : List String) : Except String (String × String) :=
  match c with
  | [a, b] => .ok (a, b)
  | _ => .error "ValueError: not enough values to unpack"

/-- Lines 91-94: if the `threshold` key is present, split its value on
commas and destructure the 2-sized chunks into `{'channel', 'threshold'}`
dictionaries; otherwise the sentinel `'Unknown'`. -/
def parseThresholdField (text : List (String × String)) : Except String ThresholdField :=
  match text.lookup "threshold" with
  | none => .ok ThresholdField.unknown
  | some s =>
    match (chunks (pySplit s ',') 2).mapM unpackPair with
    | .ok ps => .ok (ThresholdField.entries
        (ps.map (fun p => { channel := p.1, threshold := p.2 })))
    | .error e => .error e

/-- Lines 95-99: `date_parser.parse(text['date'] + ' ' + text['etim'])
.isoformat()` inside a `try` that catches only KeyError. The external
dateutil parser is the parameter `dp` (`none` models its ParserError, a
ValueError subclass, which therefore escapes the handler). -/
def parseDateField (dp : String → Option String) (text : List (String × String)) :
    Except String String :=
  match text.lookup "date" with
  | none => .ok "Unknown"
  | some d =>
    match text.lookup "etim" with
    | none => .ok "Unknown"
    | some t =>
      match dp (d ++ " " ++ t) with
      | some iso => .ok iso
      | none => .error "ParserError: Unknown string format"

/-- Lines 100-110: an external matrix takes precedence; otherwise the
embedded `spill` value is decoded. The `assert` for a missing `spill` key
raises AssertionError, which the handler catches by setting `spill = None`;
the KeyError raised for a present-but-empty value and any ValueError from
the decode are not caught. -/
def parseSpillField (text : List (String × String)) (comp_matrix : Option SpillMatrix) :
    Except String (Option SpillMatrix) :=
  match comp_matrix with
  | some m => .ok (some m)
  | none =>
    match text.lookup "spill" with
    | none => .ok none
    | some s =>
      if s.length < 1 then
        .error "KeyError: no spillover matrix found, please provide path to relevant csv file with comp_matrix argument"
      else
        match _get_spill_matrix s with
        | .ok m => .ok (some m)
        | .error e => .error e

/-- Lines 111-113: presence is tested on key `cst_setup_status` but the
value is read from key `cst setup status`; reading a missing key raises
KeyError. -/
def parseCst (text : List (String × String)) : Except String Bool :=
  match text.lookup "cst_setup_status" with
  | none => .ok false
  | some _ =>
    match text.lookup "cst setup status" with
    | none => .error "KeyError: cst setup status"
    | some v => .ok (v == "SUCCESS")

/-- `FCSFile.__init__` (lines 77-113), with the fallible steps in source
order: `int(tot)`, the event reshape, threshold parsing, the acquisition
date, the spillover matrix, and the quality-control flag. `dp` is the
external dateutil parser, `comp_matrix` the optional external compensation
matrix (already loaded). -/
def buildFCSFile (dp : String → Option String) (fd : FlowData)
    (comp_matrix : Option SpillMatrix) : Except String FCSFile :=
  (pyTot fd.text).bind fun total_events =>
  (npReshape fd.events fd.channel_count).bind fun event_data =>
  (parseThresholdField fd.text).bind fun threshold =>
  (parseDateField dp fd.text).bind fun processing_date =>
  (parseSpillField fd.text comp_matrix).bind fun spill =>
  (parseCst fd.text).bind fun cst_pass =>
  .ok { filename := (fd.text.lookup "fil").getD "Unknown_filename",
        sys := (fd.text.lookup "sys").getD "Unknown_system",
        total_events := total_events,
        tube_name := (fd.text.lookup "tube name").getD "Unknown",
        exp_name := (fd.text.lookup "experiment name").getD "Unknown",
        cytometer := (fd.text.lookup "cyt").getD "Unknown",
        creator := (fd.text.lookup "creator").getD "Unknown",
        operator := (fd.text.lookup "export user name").getD "Unknown",
        fluoro_mappings := _get_fluoro_mapping fd.channels,
        data := fd.events,
        event_data := event_data,
        threshold := threshold,
        processing_date := processing_date,
        spill := spill,
        cst_pass := cst_pass }

/-! ## The compensation engine (read_write.py lines 163-175) -/

/-- Whether `needle` occurs contiguously in `hay`. -/
def containsSubList (hay needle : List Char) : Bool :=
  match hay with
  | [] => needle.isEmpty
  | _ :: rest => needle.isPrefixOf hay || containsSubList rest needle

/-- Python `x.find(s) != -1`: `s` occurs contiguously in `x`. -/
def containsSub (x s : String) : Bool :=
  containsSubList x.data s.data

/-- Line 171-172: a channel is kept for compensation when its label contains
none of the scatter/time substrings. -/
def isCompensable (label : String) : Bool :=
  !(["FSC", "SSC", "Time", "FS", "SS"].any (fun s => containsSub label s))

/-- `[i for i, x in enumerate(channels) if not any(...)]` (lines 171-172). -/
def compensableIdx (channels : List String) : List Nat :=
  (List.range channels.length).filter (fun i => isCompensable (channels.getD i ""))

/-- `[x['channel'] for x in self.fluoro_mappings]` (line 170). -/
def FCSFile.channels (f : FCSFile) : List String :=
  f.fluoro_mappings.map (fun m => m.channel)

/-- The compensable column indices of a file (line 171). -/
def FCSFile.channel_idx (f : FCSFile) : List Nat :=
  compensableIdx f.channels

/-- `self.event_data[:, channel_idx]` (line 173): the selected columns of
each row, in index order. -/
def compInput (f : FCSFile) : List (List Rat) :=
  f.event_data.map (fun row => f.channel_idx.map (fun i => row.getD i 0))

/-- Position of `j` in an index list (`none` when absent). -/
def posIn (idx : List Nat) (j : Nat) : Option Nat :=
  match idx with
  | [] => none
  | i :: rest => if i = j then some 0 else (posIn rest j).map (· + 1)

/-- Write the solved values back at the selected column indices
(`self.event_data[:, channel_idx] = comp_data`, line 175) for one row:
column `j` receives `vals[k]` when `j` is the `k`-th selected index and is
left untouched otherwise. `j0` is the index of the first column of `row`. -/
def assignColsAux (idx : List Nat) (vals : List Rat) : Nat → List Rat → List Rat
  | _, [] => []
  | j, a :: rest =>
    (match posIn idx j with
     | none => a
     | some k => vals.getD k a) :: assignColsAux idx vals (j + 1) rest

/-- Column write-back for a whole row. -/
def assignCols (idx : List Nat) (vals row : List Rat) : List Rat :=
  assignColsAux idx vals 0 row

/-- `FCSFile.compensate` (lines 163-175). The external
`np.linalg.solve(spill.T, comp_data.T).T` is the parameter `solve`; numpy
raises unless its result has the shape of the selected submatrix, which the
write-back guard mirrors. The assert on line 169 raises AssertionError when
no spillover matrix is available. -/
def compensate (solve : SpillMatrix → List (List Rat) → List (List Rat))
    (f : FCSFile) : Except String FCSFile :=
  match f.spill with
  | none => .error "AssertionError: Unable to locate spillover matrix, please provide a compensation matrix"
  | some sp =>
    let solved := solve sp (compInput f)
    if solved.length = f.event_data.length ∧ (∀ r ∈ solved, r.length = f.channel_idx.length) then
      .ok { f with event_data :=
        (f.event_data.zip solved).map (fun p => assignCols f.channel_idx p.2 p.1) }
    else
      .error "ValueError: could not broadcast input array"

/-! ## The gate model (gate.py) -/

/-- `ThresholdGeom` (from `CytoPy.data.geometry`, outside `src/`).
Modelled from the spec: it carries axis identifiers `x`, `y`, transform
identifiers `transform_x`, `transform_y`, and the threshold cut values; all
mongoengine fields are nullable and default to null. -/
structure ThresholdGeom where
  x : Option String := none
  y : Option String := none
  transform_x : Option String := none
  transform_y : Option String := none
  x_threshold : Option Rat := none
  y_threshold : Option Rat := none
  deriving DecidableEq

/-- `ChildThreshold` (gate.py lines 5-20). -/
structure ChildThreshold where
  name : String := ""
  definition : String := ""
  geom : ThresholdGeom := {}
  deriving DecidableEq

/-- `ThresholdGate` (gate.py lines 38-64) with the inherited `Gate` base
fields flattened in. `preprocessing` keeps the string-valued entries, the
only ones `add_child` reads (`transform_x`, `transform_y`); `y` is `none`
when the optional secondary axis is unset. -/
structure ThresholdGate where
  gate_name : String
  parent : String
  x : String
  y : Option String := none
  preprocessing : List (String × String) := []
  postprocessing : List (String × String) := []
  method : String := ""
  method_kwargs : List (String × String) := []
  children : List ChildThreshold := []
  deriving DecidableEq

/-- Lines 72-74: the child geometry is stamped with the gate axes and with
the `transform_x`/`transform_y` preprocessing values (null when absent). -/
def stampChild (g : ThresholdGate) (child : ChildThreshold) : ChildThreshold :=
  { child with geom :=
    { child.geom with
        x := some g.x,
        y := g.y,
        transform_x := g.preprocessing.lookup "transform_x",
        transform_y := g.preprocessing.lookup "transform_y" } }

/-- `ThresholdGate.add_child` (lines 66-75): validate the definition code
against the gating mode (2-D when `y` is set, 1-D otherwise), then stamp the
child geometry and append the child. The assert precedes every mutation. -/
def ThresholdGate.add_child (g : ThresholdGate) (child : ChildThreshold) :
    Except String ThresholdGate :=
  match g.y with
  | some _ =>
    if child.definition ∈ (["++", "+-", "-+", "--"] : List String) then
      .ok { g with children := g.children ++ [stampChild g child] }
    else .error "AssertionError: Invalid child definition, should be one of ++, +-, -+, or --"
  | none =>
    if child.definition ∈ (["+", "-"] : List String) then
      .ok { g with children := g.children ++ [stampChild g child] }
    else .error "AssertionError: Invalid child definition, should be either + or -"

/-- The gate state after a call to `add_child`: when the assert raises, the
exception propagates before any mutation (the assert on lines 68-71 comes
before the stamping and append on lines 72-75), so the gate is unchanged. -/
def add_child_post (g : ThresholdGate) (child : ChildThreshold) : ThresholdGate :=
  match g.add_child child with
  | .ok g2 => g2
  | .error _ => g

/-! ## Spec-side spillover encoder -/

/-- Comma-joining of tokens (the inverse of splitting on commas when no
token contains a comma). -/
def intercalateComma : List String → String
  | [] => ""
  | [t] => t
  | t :: rest => t ++ "," ++ intercalateComma rest

/-- Modelled from the spec: the serialized spillover form
`"<n>,<label_1>,...,<label_n>,<v_11>,...,<v_nn>"` of section 4.2. The
repository contains only the decoder `_get_spill_matrix`; this encoder,
parameterised by a renderer for the numeric values, is the spec-side
counterpart used to state the decode/re-encode round trip. -/
def encode_spill (render : Rat → String) (m : SpillMatrix) : String :=
  intercalateComma (toString m.rowLabels.length :: (m.rowLabels ++ (m.rows.flatten.map render)))

/-! ## Concrete inputs used by the witnesses and counterexamples -/

/-- A dateutil stub for inputs whose date fields are never consulted or
never parse. -/
def dpNone : String → Option String := fun _ => none

/-- A linear solver stub that returns its input unchanged (an identity
spillover matrix). -/
def solveId : SpillMatrix → List (List Rat) → List (List Rat) := fun _ d => d

/-- A file with one scatter and one fluorescence channel and an identity
1-by-1 spillover matrix over the fluorescence channel. -/
def f2W : FCSFile :=
  { fluoro_mappings := [{ channel := "FSC-A", marker := "" },
                        { channel := "B530-A", marker := "" }],
    data := [5, 7, 11, 13],
    event_data := [[5, 7], [11, 13]],
    spill := some { rowLabels := ["B530-A"], colLabels := ["B530-A"], rows := [[1]] } }

/-- A 2-D threshold gate (`y` set). -/
def g3W : ThresholdGate := { gate_name := "g", parent := "root", x := "X", y := some "Y" }

/-- A child carrying a 1-D definition code. -/
def c3W : ChildThreshold := { name := "p", definition := "+" }

/-- A 1-D threshold gate (`y` unset) with a transform preprocessing entry. -/
def g4W : ThresholdGate :=
  { gate_name := "g", parent := "root", x := "X",
    preprocessing := [("transform_x", "logicle")] }

/-- A child carrying a valid 1-D definition code. -/
def c4W : ChildThreshold := { name := "p", definition := "+" }

/-- Metadata with a present-but-empty `spill` value. -/
def fdEmptySpill : FlowData :=
  { text := [("spill", "")], channels := [{ PnN := "FSC-A", PnS := none }], events := [1] }

/-- Metadata with no `spill` key at all. -/
def fdW5 : FlowData :=
  { text := [], channels := [{ PnN := "FSC-A", PnS := none }], events := [1] }

/-- The record `fdW5` loads to. -/
def rW5 : FCSFile :=
  { fluoro_mappings := [{ channel := "FSC-A", marker := "" }],
    data := [1], event_data := [[1]] }

/-- Metadata whose `date`/`etim` values are present but unparsable. -/
def fdBadDate : FlowData :=
  { text := [("date", "nodate"), ("etim", "notime")],
    channels := [{ PnN := "FSC-A", PnS := none }], events := [1] }

/-- Metadata with parsable `date`/`etim` values. -/
def fdW6 : FlowData :=
  { text := [("date", "01-JAN-2020"), ("etim", "00:00:00")],
    channels := [{ PnN := "FSC-A", PnS := none }], events := [1] }

/-- A dateutil stub that parses exactly the combined value of `fdW6`. -/
def dpW6 : String → Option String :=
  fun s => if s = "01-JAN-2020 00:00:00" then some "2020-01-01T00:00:00" else none

/-- The record `fdW6` loads to under `dpW6`. -/
def rW6 : FCSFile :=
  { fluoro_mappings := [{ channel := "FSC-A", marker := "" }],
    data := [1], event_data := [[1]],
    processing_date := "2020-01-01T00:00:00" }

/-- Metadata carrying the real quality-control key (with spaces) set to
SUCCESS, and no underscore-spelled variant. -/
def fdW7 : FlowData :=
  { text := [("cst setup status", "SUCCESS")],
    channels := [{ PnN := "FSC-A", PnS := none }], events := [1] }

/-- The record `fdW7` loads to: the flag stays false. -/
def rW7 : FCSFile :=
  { fluoro_mappings := [{ channel := "FSC-A", marker := "" }],
    data := [1], event_data := [[1]] }

/-- Two declared channels, one with a marker, with underscores in the raw
names; four events in the flat buffer. -/
def fdW8 : FlowData :=
  { text := [],
    channels := [{ PnN := "FSC_A", PnS := none },
                 { PnN := "B530_A", PnS := some "CD3_FITC" }],
    events := [1, 2, 3, 4] }

/-- The record `fdW8` loads to. -/
def rW8 : FCSFile :=
  { fluoro_mappings := [{ channel := "FSC-A", marker := "" },
                        { channel := "B530-A", marker := "CD3-FITC" }],
    data := [1, 2, 3, 4], event_data := [[1, 2], [3, 4]] }

/-- Two declared channels but a 3-element buffer: not a multiple. -/
def fdBad9 : FlowData :=
  { text := [],
    channels := [{ PnN := "a", PnS := none }, { PnN := "b", PnS := none }],
    events := [1, 2, 3] }

/-- Two declared channels and a 4-element buffer. -/
def fdGood9 : FlowData :=
  { text := [],
    channels := [{ PnN := "a", PnS := none }, { PnN := "b", PnS := none }],
    events := [1, 2, 3, 4] }

/-- The record `fdGood9` loads to. -/
def rGood9 : FCSFile :=
  { fluoro_mappings := [{ channel := "a", marker := "" },
                        { channel := "b", marker := "" }],
    data := [1, 2, 3, 4], event_data := [[1, 2], [3, 4]] }

/-- Metadata whose `threshold` value splits into three tokens. -/
def fdW10 : FlowData :=
  { text := [("threshold", "FSC,1000,SSC")],
    channels := [{ PnN := "a", PnS := none }], events := [1] }

/-! ## Basic lemmas about the embedding -/

theorem bind_ok_iff {ε α β : Type} (x : Except ε α) (f : α → Except ε β) (b : β) :
    x.bind f = .ok b ↔ ∃ a, x = .ok a ∧ f a = .ok b := by
  cases x <;> simp [Except.bind]

theorem exOk_false_iff {ε α : Type} (e : Except ε α) :
    exOk e = false ↔ ∃ m, e = .error m := by
  cases e <;> simp [exOk]

theorem chunksFuel_nil {α : Type} (f n : Nat) : chunksFuel (α := α) f [] n = [] := by
  cases f <;> rfl

theorem chunksFuel_irrel {α : Type} :
    ∀ (f1 f2 : Nat) (l : List α) (n : Nat), l.length ≤ f1 → l.length ≤ f2 →
      chunksFuel f1 l n = chunksFuel f2 l n := by
  intro f1
  induction f1 with
  | zero =>
    intro f2 l n h1 _
    have hl : l = [] := List.length_eq_zero.mp (Nat.le_zero.mp h1)
    subst hl
    rw [chunksFuel_nil, chunksFuel_nil]
  | succ f ih =>
    intro f2 l n h1 h2
    cases l with
    | nil => rw [chunksFuel_nil, chunksFuel_nil]
    | cons a rest =>
      cases f2 with
      | zero => simp at h2
      | succ g =>
        cases n with
        | zero => rfl
        | succ m =>
          simp only [chunksFuel]
          congr 1
          apply ih
          · rw [List.length_drop]
            simp only [List.length_cons] at h1
            omega
          · rw [List.length_drop]
            simp only [List.length_cons] at h2
            omega

theorem chunks_nil {α : Type} (n : Nat) : chunks ([] : List α) n = [] := rfl

theorem chunks_zero {α : Type} (l : List α) : chunks l 0 = [] := by
  cases l <;> rfl

theorem chunks_cons {α : Type} (a : α) (rest : List α) (m : Nat) :
    chunks (a :: rest) (m+1) = (a :: rest).take (m+1) :: chunks (rest.drop m) (m+1) := by
  show chunksFuel (rest.length + 1) (a :: rest) (m+1)
      = (a :: rest).take (m+1) :: chunksFuel (rest.drop m).length (rest.drop m) (m+1)
  simp only [chunksFuel]
  congr 1
  apply chunksFuel_irrel
  · rw [List.length_drop]; exact Nat.sub_le _ _
  · exact le_refl _

theorem chunks_two {α : Type} (a b : α) (rest : List α) :
    chunks (a :: b :: rest) 2 = [a, b] :: chunks rest 2 := by
  have h := chunks_cons a (b :: rest) 1
  simpa using h

theorem chunks_one {α : Type} (a : α) : chunks [a] 2 = [[a]] := by
  have h := chunks_cons a [] 1
  simpa [chunks_nil] using h

theorem chunks_flatten {α : Type} (m : Nat) : ∀ (l : List α), (chunks l (m+1)).flatten = l
  | [] => by rw [chunks_nil]; rfl
  | a :: rest => by
    have ih := chunks_flatten m (rest.drop m)
    rw [chunks_cons, List.flatten_cons, ih, List.take_succ_cons, List.cons_append,
      List.take_append_drop]
termination_by l => l.length
decreasing_by simp [List.length_drop]; omega

theorem chunks_length {α : Type} (m : Nat) : ∀ (k : Nat) (l : List α),
    l.length = (m+1) * k → (chunks l (m+1)).length = k
  | 0, l, h => by
    have hl : l = [] := List.length_eq_zero.mp (by omega)
    subst hl
    rw [chunks_nil]; rfl
  | k+1, l, h => by
    match l with
    | [] =>
      have : 0 < (m+1) * (k+1) := Nat.mul_pos (Nat.succ_pos m) (Nat.succ_pos k)
      simp only [List.length_nil] at h
      omega
    | a :: rest =>
      rw [chunks_cons]
      simp only [List.length_cons]
      have hlen : (rest.drop m).length = (m+1) * k := by
        rw [List.length_drop]
        simp only [List.length_cons] at h
        rw [Nat.mul_succ] at h
        omega
      rw [chunks_length m k (rest.drop m) hlen]

theorem chunks_getD {α : Type} (m : Nat) : ∀ (i : Nat) (l : List α),
    i * (m+1) < l.length →
    (chunks l (m+1)).getD i [] = (l.drop (i * (m+1))).take (m+1)
  | 0, l, h => by
    match l with
    | [] => simp at h
    | a :: rest =>
      rw [chunks_cons]
      simp
  | i+1, l, h => by
    match l with
    | [] => simp at h
    | a :: rest =>
      rw [chunks_cons, List.getD_cons_succ]
      have hb : i * (m+1) < (rest.drop m).length := by
        rw [List.length_drop]
        simp only [List.length_cons] at h
        rw [Nat.succ_mul] at h
        omega
      rw [chunks_getD m i (rest.drop m) hb, List.drop_drop]
      congr 1
      have he : (i+1) * (m+1) = (m + i * (m+1)) + 1 := by ring
      rw [he, List.drop_succ_cons]

theorem chunks_row_length {α : Type} (m : Nat) : ∀ (l : List α), ((m+1) ∣ l.length) →
    ∀ r ∈ chunks l (m+1), r.length = m+1
  | [], _, r, hr => by rw [chunks_nil] at hr; simp at hr
  | a :: rest, hd, r, hr => by
    rw [chunks_cons] at hr
    simp only [List.mem_cons] at hr
    obtain ⟨k, hk⟩ := hd
    simp only [List.length_cons] at hk
    match k, hk with
    | k2+1, hk =>
      rw [Nat.mul_succ] at hk
      rcases hr with hr | hr
      · subst hr
        rw [List.length_take]
        simp only [List.length_cons]
        have : m + 1 ≤ rest.length + 1 := by omega
        omega
      · exact chunks_row_length m (rest.drop m)
          ⟨k2, by rw [List.length_drop]; omega⟩ r hr
termination_by l => l.length
decreasing_by simp [List.length_drop]; omega

theorem mapM_option_length {α β : Type} (f : α → Option β) :
    ∀ (l : List α) (res : List β), l.mapM f = some res → res.length = l.length
  | [], res, h => by
    simp only [List.mapM_nil, pure] at h
    cases h
    rfl
  | a :: l, res, h => by
    rw [List.mapM_cons] at h
    cases hfa : f a with
    | none => rw [hfa] at h; simp at h
    | some b =>
      rw [hfa] at h
      cases hml : l.mapM f with
      | none => rw [hml] at h; simp at h
      | some bs =>
        rw [hml] at h
        have h2 : some (b :: bs) = some res := h
        injection h2 with h2
        have ih := mapM_option_length f l bs hml
        subst h2
        simp [ih]

theorem mapM_pyFloat_map (render : Rat → String) :
    ∀ (qs : List Rat), (∀ q ∈ qs, pyFloat? (pstrip (render q)) = some q) →
      (qs.map (fun q => pstrip (render q))).mapM pyFloat? = some qs := by
  intro qs
  induction qs with
  | nil => intro _; rfl
  | cons q qs ih =>
    intro h
    simp only [List.map_cons, List.mapM_cons]
    rw [h q (by simp), ih (fun x hx => h x (by simp [hx]))]
    rfl

theorem unpack_odd : ∀ (l : List String), l.length % 2 = 1 →
    ∃ e, (chunks l 2).mapM unpackPair = Except.error (ε := String) e
  | [], h => by simp at h
  | [a], _ => by
    refine ⟨"ValueError: not enough values to unpack", ?_⟩
    rw [chunks_one]
    rfl
  | a :: b :: rest, h => by
    have hr : rest.length % 2 = 1 := by
      simp only [List.length_cons] at h
      omega
    obtain ⟨e, he⟩ := unpack_odd rest hr
    refine ⟨e, ?_⟩
    rw [chunks_two, List.mapM_cons, he]
    rfl
termination_by l => l.length

theorem exOk_true_iff {ε α : Type} (e : Except ε α) :
    exOk e = true ↔ ∃ a, e = .ok a := by
  cases e <;> simp [exOk]

/-- Inversion of a successful `FCSFile.__init__`: every fallible step
succeeded and produced the corresponding attribute. -/
theorem build_ok_inv (dp : String → Option String) (fd : FlowData)
    (comp : Option SpillMatrix) (r : FCSFile)
    (h : buildFCSFile dp fd comp = .ok r) :
    pyTot fd.text = .ok r.total_events ∧
    npReshape fd.events fd.channel_count = .ok r.event_data ∧
    parseThresholdField fd.text = .ok r.threshold ∧
    parseDateField dp fd.text = .ok r.processing_date ∧
    parseSpillField fd.text comp = .ok r.spill ∧
    parseCst fd.text = .ok r.cst_pass ∧
    r.fluoro_mappings = _get_fluoro_mapping fd.channels ∧
    r.data = fd.events := by
  unfold buildFCSFile at h
  rw [bind_ok_iff] at h
  obtain ⟨tot, h1, h⟩ := h
  rw [bind_ok_iff] at h
  obtain ⟨ev, h2, h⟩ := h
  rw [bind_ok_iff] at h
  obtain ⟨thr, h3, h⟩ := h
  rw [bind_ok_iff] at h
  obtain ⟨pdate, h4, h⟩ := h
  rw [bind_ok_iff] at h
  obtain ⟨sp, h5, h⟩ := h
  rw [bind_ok_iff] at h
  obtain ⟨cst, h6, h⟩ := h
  injection h with h
  subst h
  exact ⟨h1, h2, h3, h4, h5, h6, rfl, rfl⟩

/-- Inversion of a successful numpy reshape. -/
theorem npReshape_ok_inv (buf : List Rat) (n : Nat) (rows : List (List Rat))
    (h : npReshape buf n = .ok rows) :
    n ≠ 0 ∧ buf.length % n = 0 ∧ rows = chunks buf n := by
  unfold npReshape at h
  by_cases h0 : n = 0
  · rw [if_pos h0] at h; cases h
  · rw [if_neg h0] at h
    by_cases hm : buf.length % n = 0
    · rw [if_pos hm] at h
      injection h with h
      exact ⟨h0, hm, h.symm⟩
    · rw [if_neg hm] at h; cases h

theorem posIn_none (j : Nat) :
    ∀ (idx : List Nat), (∀ i ∈ idx, i ≠ j) → posIn idx j = none := by
  intro idx
  induction idx with
  | nil => intro _; rfl
  | cons i rest ih =>
    intro h
    unfold posIn
    rw [if_neg (h i (by simp)), ih (fun x hx => h x (by simp [hx]))]
    rfl

theorem assignColsAux_length (idx : List Nat) (vals : List Rat) :
    ∀ (j : Nat) (row : List Rat), (assignColsAux idx vals j row).length = row.length := by
  intro j row
  induction row generalizing j with
  | nil => rfl
  | cons a rest ih => simp [assignColsAux, ih]

theorem assignColsAux_getD (idx : List Nat) (vals : List Rat) :
    ∀ (row : List Rat) (j0 k : Nat), posIn idx (j0 + k) = none →
      (assignColsAux idx vals j0 row).getD k 0 = row.getD k 0 := by
  intro row
  induction row with
  | nil => intro j0 k _; rfl
  | cons a rest ih =>
    intro j0 k h
    cases k with
    | zero =>
      simp only [Nat.add_zero] at h
      simp [assignColsAux, h]
    | succ k2 =>
      simp only [assignColsAux, List.getD_cons_succ]
      apply ih (j0 + 1) k2
      have : j0 + 1 + k2 = j0 + (k2 + 1) := by omega
      rw [this]
      exact h

theorem mem_compensableIdx (channels : List String) (j : Nat)
    (h : j ∈ compensableIdx channels) : isCompensable (channels.getD j "") = true := by
  unfold compensableIdx at h
  exact (List.mem_filter.mp h).2

/-- `get?` of a zipped-and-mapped list, pointwise. -/
theorem zip_map_getElem? {α β γ : Type} (f : α × β → γ) :
    ∀ (l1 : List α) (l2 : List β) (i : Nat),
      ((l1.zip l2).map f)[i]? =
        match l1[i]?, l2[i]? with
        | some a, some b => some (f (a, b))
        | _, _ => none := by
  intro l1
  induction l1 with
  | nil => intro l2 i; simp
  | cons a l1 ih =>
    intro l2 i
    cases l2 with
    | nil => simp
    | cons b l2 =>
      cases i with
      | zero => simp
      | succ i2 => simpa using ih l2 i2

/-! ## Claims -/

/-- C3: `add_child` raises exactly when the child definition code is invalid
for the gating mode (it must be one of `++`, `+-`, `-+`, `--` when `y` is
set, and one of `+`, `-` when `y` is unset), and a raising call leaves the
gate — its child list included — unchanged. -/
theorem C3_add_child_validation (g : ThresholdGate) (c : ChildThreshold) :
    (exOk (g.add_child c) = false ↔
      (match g.y with
       | some _ => c.definition ∉ (["++", "+-", "-+", "--"] : List String)
       | none => c.definition ∉ (["+", "-"] : List String)))
    ∧ (exOk (g.add_child c) = false → add_child_post g c = g) := by
  unfold add_child_post ThresholdGate.add_child
  cases hy : g.y with
  | none =>
    by_cases hd : c.definition ∈ (["+", "-"] : List String)
    · rw [if_pos hd]; simp [exOk, hd]
    · rw [if_neg hd]; simp [exOk, hd]
  | some yv =>
    by_cases hd : c.definition ∈ (["++", "+-", "-+", "--"] : List String)
    · rw [if_pos hd]; simp [exOk, hd]
    · rw [if_neg hd]; simp [exOk, hd]

/-- C3 witness: a 2-D gate rejects a child carrying the 1-D code `+` and is
left unchanged. -/
theorem C3_witness :
    exOk (g3W.add_child c3W) = false ∧ add_child_post g3W c3W = g3W := by
  have h := C3_add_child_validation g3W c3W
  have hf : exOk (g3W.add_child c3W) = false :=
    h.1.mpr (show c3W.definition ∉ (["++", "+-", "-+", "--"] : List String) by decide)
  exact ⟨hf, h.2 hf⟩

/-- C4: with a valid definition code for the gating mode, `add_child`
appends exactly one child at the end of the child list, leaving the earlier
children untouched, and the appended child keeps its name and definition
while its geometry is stamped with the gate axes (`geom.x = x`,
`geom.y = y`) and the `transform_x`/`transform_y` preprocessing values
(none when the key is absent). -/
theorem C4_add_child_append (g : ThresholdGate) (c : ChildThreshold)
    (h : match g.y with
         | some _ => c.definition ∈ (["++", "+-", "-+", "--"] : List String)
         | none => c.definition ∈ (["+", "-"] : List String)) :
    g.add_child c = .ok { g with children := g.children ++ [stampChild g c] }
    ∧ (stampChild g c).name = c.name
    ∧ (stampChild g c).definition = c.definition
    ∧ (stampChild g c).geom.x = some g.x
    ∧ (stampChild g c).geom.y = g.y
    ∧ (stampChild g c).geom.transform_x = g.preprocessing.lookup "transform_x"
    ∧ (stampChild g c).geom.transform_y = g.preprocessing.lookup "transform_y" := by
  have hmain : g.add_child c = .ok { g with children := g.children ++ [stampChild g c] } := by
    unfold ThresholdGate.add_child
    cases hy : g.y with
    | none =>
      rw [hy] at h
      simp only [hy]
      rw [if_pos h]
    | some yv =>
      rw [hy] at h
      simp only [hy]
      rw [if_pos h]
  exact ⟨hmain, rfl, rfl, rfl, rfl, rfl, rfl⟩

/-- C4 witness: a 1-D gate accepts the code `+`, appends exactly that one
stamped child, and the stamp carries the gate axis and transform. -/
theorem C4_witness :
    g4W.add_child c4W = .ok { g4W with children := g4W.children ++ [stampChild g4W c4W] }
    ∧ (stampChild g4W c4W).name = c4W.name
    ∧ (stampChild g4W c4W).definition = c4W.definition
    ∧ (stampChild g4W c4W).geom.x = some g4W.x
    ∧ (stampChild g4W c4W).geom.y = g4W.y
    ∧ (stampChild g4W c4W).geom.transform_x = g4W.preprocessing.lookup "transform_x"
    ∧ (stampChild g4W c4W).geom.transform_y = g4W.preprocessing.lookup "transform_y" :=
  C4_add_child_append g4W c4W
    (show c4W.definition ∈ (["+", "-"] : List String) by decide)

/-- C5 counterexample: a present-but-empty `spill` metadata value makes
construction raise at load time (the KeyError of line 106 is not caught by
the `except AssertionError` handler of line 109), refuting the claim that
construction succeeds with `spill = None` in that case. -/
theorem C5_counterexample :
    buildFCSFile dpNone fdEmptySpill none =
      .error "KeyError: no spillover matrix found, please provide path to relevant csv file with comp_matrix argument"
    ∧ exOk (buildFCSFile dpNone fdEmptySpill none) = false :=
  ⟨rfl, rfl⟩

/-- C5 (amended): when the `spill` key is wholly absent and no external
matrix is supplied, construction succeeds with `spill = None`, and the
spillover precondition error is raised only when `compensate` is invoked;
a present-but-empty `spill` value instead fails construction (see the
counterexample). -/
theorem C5_spill_absent_tolerated (dp : String → Option String) (fd : FlowData)
    (r : FCSFile)
    (hs : fd.text.lookup "spill" = none)
    (hok : buildFCSFile dp fd none = .ok r) :
    r.spill = none ∧
    ∀ solve, compensate solve r =
      .error "AssertionError: Unable to locate spillover matrix, please provide a compensation matrix" := by
  have h5 := (build_ok_inv dp fd none r hok).2.2.2.2.1
  have hkey : parseSpillField fd.text none = .ok none := by
    unfold parseSpillField
    rw [hs]
  rw [hkey] at h5
  injection h5 with h5
  refine ⟨h5.symm, ?_⟩
  intro solve
  unfold compensate
  rw [← h5]

/-- C5 witness: a file with no `spill` key loads with `spill = None` and
only `compensate` raises. -/
theorem C5_witness :
    fdW5.text.lookup "spill" = none
    ∧ buildFCSFile dpNone fdW5 none = .ok rW5
    ∧ rW5.spill = none
    ∧ compensate solveId rW5 =
        .error "AssertionError: Unable to locate spillover matrix, please provide a compensation matrix" := by
  have h := C5_spill_absent_tolerated dpNone fdW5 rW5 rfl rfl
  exact ⟨rfl, rfl, h.1, h.2 solveId⟩

/-- C6 counterexample: present but unparsable `date`/`etim` values fail the
load (dateutil raises a ParserError, a ValueError subclass, which the
`except KeyError` handler of line 98 does not catch), refuting the claim
that unparsable dates yield the `'Unknown'` sentinel without failing. -/
theorem C6_counterexample :
    buildFCSFile dpNone fdBadDate none = .error "ParserError: Unknown string format" :=
  rfl

/-- C6 (amended): `processing_date` is the parsed ISO string when both
`date` and `etim` are present and the combined value parses; it is the
`'Unknown'` sentinel when either key is missing; and an unparsable combined
value raises an uncaught parse error, so construction fails. -/
theorem C6_processing_date (dp : String → Option String) (fd : FlowData)
    (comp : Option SpillMatrix) :
    (∀ r, buildFCSFile dp fd comp = .ok r →
      (match fd.text.lookup "date", fd.text.lookup "etim" with
       | some d, some t => ∃ iso, dp (d ++ " " ++ t) = some iso ∧ r.processing_date = iso
       | _, _ => r.processing_date = "Unknown"))
    ∧ (∀ d t, fd.text.lookup "date" = some d → fd.text.lookup "etim" = some t →
        dp (d ++ " " ++ t) = none → exOk (buildFCSFile dp fd comp) = false) := by
  constructor
  · intro r hok
    have h4 := (build_ok_inv dp fd comp r hok).2.2.2.1
    unfold parseDateField at h4
    cases hld : fd.text.lookup "date" with
    | none =>
      rw [hld] at h4
      injection h4 with h4
      simp only [hld]
      exact h4.symm
    | some d =>
      rw [hld] at h4
      cases hle : fd.text.lookup "etim" with
      | none =>
        rw [hle] at h4
        injection h4 with h4
        simp only [hld, hle]
        exact h4.symm
      | some t =>
        rw [hle] at h4
        simp only [hld, hle]
        have h4x : (match dp (d ++ " " ++ t) with
            | some iso => Except.ok iso
            | none => Except.error "ParserError: Unknown string format")
            = Except.ok (ε := String) r.processing_date := h4
        cases hdp : dp (d ++ " " ++ t) with
        | none => rw [hdp] at h4x; cases h4x
        | some iso =>
          rw [hdp] at h4x
          injection h4x with h4x
          exact ⟨iso, rfl, h4x.symm⟩
  · intro d t hd ht hdp
    rw [exOk_false_iff]
    cases hb : buildFCSFile dp fd comp with
    | error e => exact ⟨e, rfl⟩
    | ok r =>
      have h4 := (build_ok_inv dp fd comp r hb).2.2.2.1
      unfold parseDateField at h4
      rw [hd, ht] at h4
      have h4x : (match dp (d ++ " " ++ t) with
          | some iso => Except.ok iso
          | none => Except.error "ParserError: Unknown string format")
          = Except.ok (ε := String) r.processing_date := h4
      rw [hdp] at h4x
      cases h4x

/-- C6 witness: a parsable date pair produces its ISO string, and the
unparsable pair of the counterexample input fails the load. -/
theorem C6_witness :
    (∃ iso, dpW6 ("01-JAN-2020" ++ " " ++ "00:00:00") = some iso
        ∧ rW6.processing_date = iso)
    ∧ exOk (buildFCSFile dpNone fdBadDate none) = false := by
  refine ⟨?_, (C6_processing_date dpNone fdBadDate none).2 "nodate" "notime" rfl rfl rfl⟩
  exact (C6_processing_date dpW6 fdW6 none).1 rW6 rfl

/-- C7: the code checks presence of the underscore-spelled key
`cst_setup_status` but reads the value of the space-spelled key
`cst setup status`; with the real metadata key (spaces) present and equal to
`SUCCESS`, the flag therefore stays false, although the claim (and the class
docstring) say it must be true — the key-spelling mismatch is a slip in the
code. -/
theorem C7_cst_key_mismatch :
    buildFCSFile dpNone fdW7 none = .ok rW7
    ∧ (fdW7.text.lookup "cst setup status" = some "SUCCESS")
    ∧ rW7.cst_pass = false :=
  ⟨rfl, rfl, rfl⟩

theorem getD_map_lt {α β : Type} [Inhabited α] [Inhabited β] (f : α → β)
    (l : List α) (i : Nat) (hi : i < l.length) :
    (l.map f).getD i default = f (l.getD i default) := by
  rw [List.getD_eq_getElem?_getD, List.getD_eq_getElem?_getD, List.getElem?_map,
    List.getElem?_eq_getElem hi]
  rfl

/-- C8: a successful load produces one channel/marker mapping per declared
channel in declared order — the list length equals the event-matrix column
count, and the i-th mapping is the i-th declared channel with underscores
replaced by hyphens in the primary name and in the secondary (marker) name,
the marker being empty when the secondary name is absent. -/
theorem C8_fluoro_mapping (dp : String → Option String) (fd : FlowData)
    (comp : Option SpillMatrix) (r : FCSFile)
    (hok : buildFCSFile dp fd comp = .ok r) :
    r.fluoro_mappings.length = fd.channels.length
    ∧ (∀ row ∈ r.event_data, row.length = fd.channels.length)
    ∧ (∀ i, i < fd.channels.length →
        r.fluoro_mappings.getD i default =
          { channel := pyReplaceChar (fd.channels.getD i default).PnN '_' '-',
            marker := match (fd.channels.getD i default).PnS with
                      | some s => pyReplaceChar s '_' '-'
                      | none => "" }) := by
  have hinv := build_ok_inv dp fd comp r hok
  have hfm := hinv.2.2.2.2.2.2.1
  have hev := hinv.2.1
  obtain ⟨hn0, hmod, hrows⟩ := npReshape_ok_inv fd.events fd.channel_count r.event_data hev
  refine ⟨?_, ?_, ?_⟩
  · rw [hfm]
    unfold _get_fluoro_mapping
    rw [List.length_map]
  · intro row hrow
    rw [hrows] at hrow
    cases hcc : fd.channel_count with
    | zero => exact absurd hcc hn0
    | succ m =>
      have hd : (m+1) ∣ fd.events.length :=
        Nat.dvd_of_mod_eq_zero (by rw [← hcc]; exact hmod)
      have hlen := chunks_row_length m fd.events hd row (by rw [← hcc]; exact hrow)
      rw [hlen]
      exact hcc.symm
  · intro i hi
    rw [hfm]
    unfold _get_fluoro_mapping
    rw [getD_map_lt _ _ i hi]

/-- C8 witness: a two-channel file with underscores in the raw names. -/
theorem C8_witness :
    rW8.fluoro_mappings.length = fdW8.channels.length
    ∧ (∀ row ∈ rW8.event_data, row.length = fdW8.channels.length)
    ∧ (∀ i, i < fdW8.channels.length →
        rW8.fluoro_mappings.getD i default =
          { channel := pyReplaceChar (fdW8.channels.getD i default).PnN '_' '-',
            marker := match (fdW8.channels.getD i default).PnS with
                      | some s => pyReplaceChar s '_' '-'
                      | none => "" }) :=
  C8_fluoro_mapping dpNone fdW8 none rW8 rfl

/-- C9: when the flat event buffer length is not a multiple of the declared
channel count the load fails, and a successful load never truncates or pads:
the rows of the event matrix flatten back to exactly the original buffer and
account for its whole length. -/
theorem C9_reshape_guard (dp : String → Option String) (fd : FlowData)
    (comp : Option SpillMatrix) :
    (¬ (fd.channel_count ∣ fd.events.length) → exOk (buildFCSFile dp fd comp) = false)
    ∧ (∀ r, buildFCSFile dp fd comp = .ok r →
        r.event_data.flatten = fd.events
        ∧ r.event_data.length * fd.channel_count = fd.events.length) := by
  constructor
  · intro hnd
    rw [exOk_false_iff]
    cases hb : buildFCSFile dp fd comp with
    | error e => exact ⟨e, rfl⟩
    | ok r =>
      have hev := (build_ok_inv dp fd comp r hb).2.1
      obtain ⟨hn0, hmod, _⟩ := npReshape_ok_inv _ _ _ hev
      exact absurd (Nat.dvd_of_mod_eq_zero hmod) hnd
  · intro r hok
    have hev := (build_ok_inv dp fd comp r hok).2.1
    obtain ⟨hn0, hmod, hrows⟩ := npReshape_ok_inv _ _ _ hev
    cases hcc : fd.channel_count with
    | zero => exact absurd hcc hn0
    | succ m =>
      have hd : (m+1) ∣ fd.events.length :=
        Nat.dvd_of_mod_eq_zero (by rw [← hcc]; exact hmod)
      obtain ⟨k, hk⟩ := hd
      constructor
      · rw [hrows, hcc]
        exact chunks_flatten m fd.events
      · rw [hrows, hcc, chunks_length m k fd.events hk, hk]
        ring

/-- C9 witness: a 3-element buffer with two declared channels fails to load,
and a 4-element buffer loads to rows that flatten back to the buffer. -/
theorem C9_witness :
    (¬ (fdBad9.channel_count ∣ fdBad9.events.length))
    ∧ exOk (buildFCSFile dpNone fdBad9 none) = false
    ∧ (rGood9.event_data.flatten = fdGood9.events
       ∧ rGood9.event_data.length * fdGood9.channel_count = fdGood9.events.length) := by
  have hnd : ¬ (fdBad9.channel_count ∣ fdBad9.events.length) := by decide
  exact ⟨hnd, (C9_reshape_guard dpNone fdBad9 none).1 hnd,
    (C9_reshape_guard dpNone fdGood9 none).2 rGood9 rfl⟩

/-- C10: a `threshold` metadata value whose comma-split has an odd number of
tokens makes construction raise — the final one-element chunk fails the
pairwise `(channel, value)` destructuring. -/
theorem C10_threshold_odd (dp : String → Option String) (fd : FlowData)
    (comp : Option SpillMatrix) (s : String)
    (h1 : fd.text.lookup "threshold" = some s)
    (h2 : (pySplit s ',').length % 2 = 1) :
    exOk (buildFCSFile dp fd comp) = false := by
  rw [exOk_false_iff]
  cases hb : buildFCSFile dp fd comp with
  | error e => exact ⟨e, rfl⟩
  | ok r =>
    have h3 := (build_ok_inv dp fd comp r hb).2.2.1
    unfold parseThresholdField at h3
    rw [h1] at h3
    obtain ⟨e, he⟩ := unpack_odd (pySplit s ',') h2
    have h3x : (match (chunks (pySplit s ',') 2).mapM unpackPair with
        | Except.ok ps => Except.ok (ThresholdField.entries
            (ps.map (fun p => { channel := p.1, threshold := p.2 })))
        | Except.error e => Except.error e) = Except.ok r.threshold := h3
    rw [he] at h3x
    cases h3x

/-- C2: with a spillover matrix available and a linear solver returning one
solved row per event over the compensable columns (the shape
`np.linalg.solve` produces), `compensate` succeeds, preserves the event
matrix shape, and leaves every column whose channel label contains one of
the substrings `FSC`, `SSC`, `Time`, `FS`, `SS` bit-identical to its value
before the call; only the compensable columns are written, and the other
attributes of the record are untouched. -/
theorem C2_compensate_scatter_untouched
    (solve : SpillMatrix → List (List Rat) → List (List Rat))
    (f : FCSFile) (sp : SpillMatrix)
    (hsp : f.spill = some sp)
    (hlen : (solve sp (compInput f)).length = f.event_data.length)
    (hrow : ∀ r ∈ solve sp (compInput f), r.length = f.channel_idx.length) :
    ∃ g, compensate solve f = .ok g
      ∧ g.event_data.length = f.event_data.length
      ∧ (∀ i, (g.event_data.getD i []).length = (f.event_data.getD i []).length)
      ∧ (∀ j, isCompensable (f.channels.getD j "") = false →
          ∀ i, (g.event_data.getD i []).getD j 0 = (f.event_data.getD i []).getD j 0)
      ∧ g.spill = f.spill ∧ g.fluoro_mappings = f.fluoro_mappings
      ∧ g.threshold = f.threshold ∧ g.processing_date = f.processing_date := by
  refine ⟨{ f with event_data := ((f.event_data.zip (solve sp (compInput f))).map (fun p => assignCols f.channel_idx p.2 p.1)) }, ?_, ?_, ?_, ?_, rfl, rfl, rfl, rfl⟩
  · show compensate solve f = _
    unfold compensate
    rw [hsp]
    show (if (solve sp (compInput f)).length = f.event_data.length
          ∧ (∀ r ∈ solve sp (compInput f), r.length = f.channel_idx.length)
        then _ else _) = _
    rw [if_pos ⟨hlen, hrow⟩]
  · show ((f.event_data.zip (solve sp (compInput f))).map
      (fun p => assignCols f.channel_idx p.2 p.1)).length = _
    rw [List.length_map, List.length_zip, hlen]
    exact Nat.min_self _
  · intro i
    have hz := zip_map_getElem?
      (fun p : List Rat × List Rat => assignCols f.channel_idx p.2 p.1)
      f.event_data (solve sp (compInput f)) i
    set sv := solve sp (compInput f) with hsv
    set nED := (f.event_data.zip sv).map
      (fun p => assignCols f.channel_idx p.2 p.1) with hnED
    cases he : f.event_data[i]? with
    | none =>
      have h1 : f.event_data.getD i [] = [] := by
        rw [List.getD_eq_getElem?_getD, he]
        rfl
      have h2 : nED.getD i [] = [] := by
        rw [List.getD_eq_getElem?_getD, hz, he]
        rfl
      rw [h1, h2]
    | some row =>
      have hi : i < f.event_data.length := by
        by_contra hcon
        rw [List.getElem?_eq_none (by omega)] at he
        cases he
      have hi2 : i < sv.length := by omega
      have h1 : f.event_data.getD i [] = row := by
        rw [List.getD_eq_getElem?_getD, he]
        rfl
      have h2 : nED.getD i [] = assignCols f.channel_idx sv[i] row := by
        rw [List.getD_eq_getElem?_getD, hz, he, List.getElem?_eq_getElem hi2]
        rfl
      rw [h1, h2]
      exact assignColsAux_length _ _ 0 row
  · intro j hj i
    have hz := zip_map_getElem?
      (fun p : List Rat × List Rat => assignCols f.channel_idx p.2 p.1)
      f.event_data (solve sp (compInput f)) i
    set sv := solve sp (compInput f) with hsv
    set nED := (f.event_data.zip sv).map
      (fun p => assignCols f.channel_idx p.2 p.1) with hnED
    cases he : f.event_data[i]? with
    | none =>
      have h1 : f.event_data.getD i [] = [] := by
        rw [List.getD_eq_getElem?_getD, he]
        rfl
      have h2 : nED.getD i [] = [] := by
        rw [List.getD_eq_getElem?_getD, hz, he]
        rfl
      rw [h1, h2]
    | some row =>
      have hi : i < f.event_data.length := by
        by_contra hcon
        rw [List.getElem?_eq_none (by omega)] at he
        cases he
      have hi2 : i < sv.length := by omega
      have h1 : f.event_data.getD i [] = row := by
        rw [List.getD_eq_getElem?_getD, he]
        rfl
      have h2 : nED.getD i [] = assignCols f.channel_idx sv[i] row := by
        rw [List.getD_eq_getElem?_getD, hz, he, List.getElem?_eq_getElem hi2]
        rfl
      rw [h1, h2]
      have hpos : posIn f.channel_idx (0 + j) = none := by
        rw [Nat.zero_add]
        apply posIn_none
        intro i2 hi2m hEq
        have hcomp := mem_compensableIdx f.channels i2 hi2m
        rw [hEq] at hcomp
        rw [hj] at hcomp
        cases hcomp
      exact assignColsAux_getD f.channel_idx _ row 0 j hpos

/-- C2 witness: a two-channel file (one scatter, one fluorescence) with an
identity solver. -/
theorem C2_witness :
    ∃ g, compensate solveId f2W = .ok g
      ∧ g.event_data.length = f2W.event_data.length
      ∧ (∀ i, (g.event_data.getD i []).length = (f2W.event_data.getD i []).length)
      ∧ (∀ j, isCompensable (f2W.channels.getD j "") = false →
          ∀ i, (g.event_data.getD i []).getD j 0 = (f2W.event_data.getD i []).getD j 0)
      ∧ g.spill = f2W.spill ∧ g.fluoro_mappings = f2W.fluoro_mappings
      ∧ g.threshold = f2W.threshold ∧ g.processing_date = f2W.processing_date :=
  C2_compensate_scatter_untouched solveId f2W
    { rowLabels := ["B530-A"], colLabels := ["B530-A"], rows := [[1]] }
    rfl rfl (by decide)

/-- C10 witness: the three-token value `FSC,1000,SSC` fails the load. -/
theorem C10_witness :
    (fdW10.text.lookup "threshold" = some "FSC,1000,SSC")
    ∧ ((pySplit "FSC,1000,SSC" ',').length % 2 = 1)
    ∧ exOk (buildFCSFile dpNone fdW10 none) = false :=
  ⟨rfl, by decide, C10_threshold_odd dpNone fdW10 none "FSC,1000,SSC" rfl (by decide)⟩

theorem except_bind_ok {ε α β : Type} (a : α) (f : α → Except ε β) :
    (Except.ok (ε := ε) a).bind f = f a := rfl

/-- Decoding a spillover string whose comma-split is `t0 :: labels ++ vals`,
with `t0` parsing to the integer `n`, exactly `n` labels, and `n*n` value
tokens whose trimmed forms all parse as floats. -/
theorem decode_tokens (s t0 : String) (labels vals : List String) (n : Nat)
    (qs : List Rat)
    (hs : pySplit s ',' = t0 :: (labels ++ vals))
    (ht0 : pyInt? t0 = some ((n : Nat) : Int))
    (hlab : labels.length = n)
    (hvals : vals.length = n * n)
    (hq : (vals.map pstrip).mapM pyFloat? = some qs) :
    _get_spill_matrix s =
      .ok { rowLabels := labels.map pstrip, colLabels := labels.map pstrip,
            rows := chunks qs n } := by
  unfold _get_spill_matrix
  rw [hs]
  have e1 : pyIntE ((t0 :: (labels ++ vals)).headD "") = .ok ((n : Nat) : Int) := by
    rw [List.headD_cons]
    unfold pyIntE
    rw [ht0]
  have e2 : checkDim ((n : Nat) : Int) = .ok n := by
    unfold checkDim
    rw [if_neg (show ¬ (((n : Nat) : Int) < 0) by omega), Int.toNat_natCast]
  simp only [e1, except_bind_ok, e2]
  simp only [List.drop_succ_cons, List.drop_zero]
  rw [← hlab, List.take_left, List.drop_left]
  have e3 : mapFloats (vals.map pstrip) = .ok qs := by
    unfold mapFloats
    rw [hq]
  have hql : qs.length = labels.length * labels.length := by
    have hlq := mapM_option_length pyFloat? (vals.map pstrip) qs hq
    rw [List.length_map] at hlq
    rw [hlq, hvals, hlab]
  have e4 : reshapeNN qs labels.length = .ok (chunks qs labels.length) := by
    unfold reshapeNN
    rw [if_pos hql]
  simp only [e3, except_bind_ok, e4]

/-- C1: decoding a well-formed spillover string
`"<n>,<label_1>,...,<label_n>,<v_11>,...,<v_nn>"` yields the `n` by `n`
matrix whose values are the remaining tokens laid out row-major and whose
row labels and column labels are both the trimmed label sequence in order;
re-encoding the decoded matrix in the same serialized form (with any value
renderer faithful on the decoded values) and decoding again yields the same
matrix with the same labels. -/
theorem C1_spill_decode_reencode (s t0 : String) (labels vals : List String)
    (n : Nat) (qs : List Rat)
    (hs : pySplit s ',' = t0 :: (labels ++ vals))
    (ht0 : pyInt? t0 = some ((n : Nat) : Int))
    (hlab : labels.length = n)
    (hvals : vals.length = n * n)
    (hq : (vals.map pstrip).mapM pyFloat? = some qs) :
    _get_spill_matrix s =
      .ok { rowLabels := labels.map pstrip, colLabels := labels.map pstrip,
            rows := chunks qs n }
    ∧ (chunks qs n).length = n
    ∧ (∀ i, i < n → ((chunks qs n).getD i []).length = n)
    ∧ (∀ i j, i < n → j < n →
        ((chunks qs n).getD i []).getD j 0 = qs.getD (i * n + j) 0)
    ∧ (∀ render : Rat → String,
        (∀ x ∈ labels, pstrip (pstrip x) = pstrip x) →
        (∀ q ∈ qs, pyFloat? (pstrip (render q)) = some q) →
        pyInt? (toString n) = some ((n : Nat) : Int) →
        pySplit (encode_spill render
            { rowLabels := labels.map pstrip, colLabels := labels.map pstrip,
              rows := chunks qs n }) ','
          = toString n :: ((labels.map pstrip) ++ qs.map render) →
        _get_spill_matrix (encode_spill render
            { rowLabels := labels.map pstrip, colLabels := labels.map pstrip,
              rows := chunks qs n })
          = .ok { rowLabels := labels.map pstrip, colLabels := labels.map pstrip,
                  rows := chunks qs n }) := by
  have hqlen : qs.length = n * n := by
    have hlq := mapM_option_length pyFloat? (vals.map pstrip) qs hq
    rw [List.length_map, hvals] at hlq
    exact hlq
  refine ⟨decode_tokens s t0 labels vals n qs hs ht0 hlab hvals hq, ?_, ?_, ?_, ?_⟩
  · cases n with
    | zero =>
      have hq0 : qs = [] := List.length_eq_zero.mp (by omega)
      subst hq0
      rw [chunks_nil]
      rfl
    | succ m => exact chunks_length m (m+1) qs hqlen
  · intro i hi
    cases n with
    | zero => omega
    | succ m =>
      have hone : (m+1) * (m+1) = m * (m+1) + (m+1) := by ring
      have hle : i * (m+1) ≤ m * (m+1) := Nat.mul_le_mul_right _ (by omega)
      have hb : i * (m+1) < qs.length := by omega
      rw [chunks_getD m i qs hb, List.length_take, List.length_drop]
      omega
  · intro i j hi hj
    cases n with
    | zero => omega
    | succ m =>
      have hone : (m+1) * (m+1) = m * (m+1) + (m+1) := by ring
      have hle : i * (m+1) ≤ m * (m+1) := Nat.mul_le_mul_right _ (by omega)
      have hb : i * (m+1) < qs.length := by omega
      rw [chunks_getD m i qs hb, List.getD_eq_getElem?_getD, List.getElem?_take,
        if_pos hj, List.getElem?_drop, ← List.getD_eq_getElem?_getD]
  · intro render hid hpt hrepr hsplit2
    have hidm : (labels.map pstrip).map pstrip = labels.map pstrip := by
      rw [List.map_map]
      exact List.map_congr_left (fun x hx => hid x hx)
    have hlab2 : (labels.map pstrip).length = n := by
      rw [List.length_map, hlab]
    have hvals2 : (qs.map render).length = n * n := by
      rw [List.length_map, hqlen]
    have hq2 : ((qs.map render).map pstrip).mapM pyFloat? = some qs := by
      rw [List.map_map]
      exact mapM_pyFloat_map render qs hpt
    have hdec := decode_tokens
      (encode_spill render
        { rowLabels := labels.map pstrip, colLabels := labels.map pstrip,
          rows := chunks qs n })
      (toString n) (labels.map pstrip) (qs.map render) n qs
      hsplit2 hrepr hlab2 hvals2 hq2
    rw [hidm] at hdec
    exact hdec

/-- C1 witness: the 2-by-2 spillover string `2,FL1,FL2,1,0,0,1`, re-encoded
with the integer renderer. -/
theorem C1_witness :
    (pySplit "2,FL1,FL2,1,0,0,1" ',' = "2" :: (["FL1", "FL2"] ++ ["1", "0", "0", "1"]))
    ∧ _get_spill_matrix "2,FL1,FL2,1,0,0,1" =
        .ok { rowLabels := ["FL1", "FL2"].map pstrip,
              colLabels := ["FL1", "FL2"].map pstrip,
              rows := chunks [1, 0, 0, 1] 2 }
    ∧ _get_spill_matrix (encode_spill (fun q => toString q.num)
          { rowLabels := ["FL1", "FL2"].map pstrip,
            colLabels := ["FL1", "FL2"].map pstrip,
            rows := chunks [1, 0, 0, 1] 2 })
        = .ok { rowLabels := ["FL1", "FL2"].map pstrip,
                colLabels := ["FL1", "FL2"].map pstrip,
                rows := chunks [1, 0, 0, 1] 2 } := by
  have h := C1_spill_decode_reencode "2,FL1,FL2,1,0,0,1" "2" ["FL1", "FL2"]
    ["1", "0", "0", "1"] 2 [1, 0, 0, 1]
    (by decide) (by decide) (by decide) (by decide) (by decide)
  exact ⟨by decide, h.1,
    h.2.2.2.2 (fun q => toString q.num) (by decide) (by decide) (by decide) (by decide)⟩

end CytoPy

